import Mathlib

/-!
# Shallow embedding of the wowlogs combat-log parser

A line-by-line embedding of the parser in `src/components/` (events, prefixes,
suffixes, advanced, guid, special, combatant, enums) together with the shared
utilities in `src/utils.rs`.  Rust `Result` values become `Except PError`;
a Rust panic (slice index out of bounds, failed `assert_eq!`, `Option::unwrap`
on `None`) is a distinct `PError.crash` outcome so that the typed-error /
panic distinction of the source is visible in the model.  Machine integers are
`Nat`/`Int` with the explicit range checks that the Rust `FromStr`
implementations perform; `f32` fields never have their numeric value inspected
by the parser, so they are carried as the raw accepted text.
-/

namespace WowLogs

/-- Outcome of a fallible Rust computation: a typed `anyhow` error or a panic. -/
inductive PError where
  | typed (msg : String)
  | crash (msg : String)
deriving DecidableEq, Repr

abbrev PResult (α : Type) : Type := Except PError α

/-- Rust slice indexing `line[i]`: panics when out of bounds. -/
def idx (l : List String) (i : Nat) : PResult String :=
  match l.get? i with
  | some x => .ok x
  | none => .error (.crash "index out of bounds")

/-- Rust slicing `&line[a..b]`: panics when the range is invalid. -/
def slice (l : List String) (a b : Nat) : PResult (List String) :=
  if a ≤ b ∧ b ≤ l.length then .ok ((l.drop a).take (b - a))
  else .error (.crash "slice index out of range")

/-- Rust slicing `&line[a..]`: panics when `a` exceeds the length. -/
def sliceFrom (l : List String) (a : Nat) : PResult (List String) :=
  if a ≤ l.length then .ok (l.drop a)
  else .error (.crash "slice index out of range")

/-- Rust `Option::unwrap`: panics on `None`. -/
def unwrapOpt {α : Type} : Option α → PResult α
  | some a => .ok a
  | none => .error (.crash "called Option unwrap on a None value")

/-- Left-to-right effectful map, stopping at the first error, as
`iter().map(..).collect::<Result<Vec<_>>>()` does. -/
def mapME {α β : Type} (f : α → PResult β) : List α → PResult (List β)
  | [] => .ok []
  | x :: xs => do
    let y ← f x
    let ys ← mapME f xs
    .ok (y :: ys)

/-! ## Character-level string utilities (Rust `str` operations) -/

def splitOnCharAux (c : Char) : List Char → List Char → List (List Char)
  | [], acc => [acc.reverse]
  | x :: xs, acc =>
    if x = c then acc.reverse :: splitOnCharAux c xs []
    else splitOnCharAux c xs (x :: acc)

/-- Rust `s.split(c)`: always at least one piece; empty pieces kept. -/
def splitOnChar (c : Char) (l : List Char) : List (List Char) :=
  splitOnCharAux c l []

def splitDash (s : String) : List String :=
  (splitOnChar '-' s.data).map fun l => String.mk l

def splitPipe (s : String) : List String :=
  (splitOnChar '|' s.data).map fun l => String.mk l

def splitComma (s : String) : List String :=
  (splitOnChar ',' s.data).map fun l => String.mk l

/-- Rust `str::starts_with`. -/
def strStarts (s p : String) : Bool := p.data.isPrefixOf s.data

/-- Rust `str::ends_with`. -/
def strEnds (s p : String) : Bool := p.data.isSuffixOf s.data

/-- `ToCamel::to_camel_case` from `src/traits.rs`: first char to ASCII upper
case, the rest to ASCII lower case. -/
def toCamelCase (s : String) : String :=
  match s.data with
  | [] => ""
  | c :: rest => String.mk (c.toUpper :: rest.map Char.toLower)

/-- Rust `[..].join(",")`. -/
def joinComma : List String → String
  | [] => ""
  | [s] => s
  | s :: rest => s ++ "," ++ joinComma rest

def splitTwoSpacesAux : List Char → List Char → Option (List Char × List Char)
  | acc, ' ' :: ' ' :: rest => some (acc.reverse, rest)
  | acc, x :: rest => splitTwoSpacesAux (x :: acc) rest
  | _, [] => none

/-- Rust `s.splitn(2, "  ").collect_tuple()`: the text before and after the
first double space, when one exists. -/
def splitTwoSpaces (s : String) : Option (String × String) :=
  (splitTwoSpacesAux [] s.data).map fun p => (String.mk p.1, String.mk p.2)

/-! ## Numeric parsing (Rust `FromStr` / `from_str_radix`) -/

def decValAux : List Char → Nat → Option Nat
  | [], acc => some acc
  | c :: cs, acc =>
    if c.isDigit then decValAux cs (acc * 10 + (c.toNat - 48)) else none

/-- Value of a non-empty all-decimal-digit string. -/
def decVal : List Char → Option Nat
  | [] => none
  | l => decValAux l 0

def hexDigitVal (c : Char) : Option Nat :=
  if c.isDigit then some (c.toNat - 48)
  else if 'a' ≤ c ∧ c ≤ 'f' then some (c.toNat - 87)
  else if 'A' ≤ c ∧ c ≤ 'F' then some (c.toNat - 55)
  else none

def hexValAux : List Char → Nat → Option Nat
  | [], acc => some acc
  | c :: cs, acc =>
    match hexDigitVal c with
    | some d => hexValAux cs (acc * 16 + d)
    | none => none

/-- Value of a non-empty all-hex-digit string. -/
def hexVal : List Char → Option Nat
  | [] => none
  | l => hexValAux l 0

/-- Rust `str::trim_start_matches("0x")`: strips every leading `0x`. -/
def strip0x : List Char → List Char
  | '0' :: 'x' :: rest => strip0x rest
  | l => l

def dropPlus : List Char → List Char
  | '+' :: rest => rest
  | l => l

/-- `u64::from_str`: optional `+`, decimal digits, value below `2 ^ 64`. -/
def parseU64? (s : String) : Option Nat :=
  match decVal (dropPlus s.data) with
  | some v => if v < 2 ^ 64 then some v else none
  | none => none

/-- `u8::from_str`: optional `+`, decimal digits, value below `2 ^ 8`. -/
def parseU8? (s : String) : Option Nat :=
  match decVal (dropPlus s.data) with
  | some v => if v < 2 ^ 8 then some v else none
  | none => none

/-- A signed decimal integer with a single optional sign, unbounded. -/
def parseIntVal? (s : String) : Option Int :=
  match s.data with
  | '-' :: rest => (decVal rest).map fun v => -(v : Int)
  | '+' :: rest => (decVal rest).map fun v => (v : Int)
  | l => (decVal l).map fun v => (v : Int)

/-- `i64::from_str`: sign, digits, and the `i64` range check. -/
def parseI64? (s : String) : Option Int :=
  match parseIntVal? s with
  | some v => if -(2 ^ 63 : Int) ≤ v ∧ v < 2 ^ 63 then some v else none
  | none => none

/-- `i8::from_str`: sign, digits, and the `i8` range check. -/
def parseI8? (s : String) : Option Int :=
  match parseIntVal? s with
  | some v => if -(2 ^ 7 : Int) ≤ v ∧ v < 2 ^ 7 then some v else none
  | none => none

/-- `u64::from_str_radix(_, 16)`: optional `+`, hex digits, range check. -/
def parseHexVal? (l : List Char) : Option Nat :=
  match hexVal (dropPlus l) with
  | some v => if v < 2 ^ 64 then some v else none
  | none => none

/-- `u8::from_str_radix(_, 16)`: optional `+`, hex digits, range check. -/
def parseHexU8? (l : List Char) : Option Nat :=
  match hexVal (dropPlus l) with
  | some v => if v < 2 ^ 8 then some v else none
  | none => none

/-! ### The `f32` text grammar

`parse_num::<f32>` only ever feeds the accepted text to fields the parser
never computes with, so an `f32` is modelled as the raw accepted text and
acceptance follows the Rust `f32::from_str` grammar. -/

def allDigits (l : List Char) : Bool := l.all fun c => c.isDigit

/-- Split at the first occurrence of a character: the text before it and the
text after it. -/
def splitAtChar (t : Char) : List Char → Option (List Char × List Char)
  | [] => none
  | c :: rest =>
    if c = t then some ([], rest)
    else (splitAtChar t rest).map fun p => (c :: p.1, p.2)

def splitAtDot : List Char → Option (List Char × List Char)
  | [] => none
  | c :: rest =>
    if c = '.' then some ([], rest)
    else (splitAtDot rest).map fun p => (c :: p.1, p.2)

def splitAtExp : List Char → Option (List Char × List Char)
  | [] => none
  | c :: rest =>
    if c = 'e' ∨ c = 'E' then some ([], rest)
    else (splitAtExp rest).map fun p => (c :: p.1, p.2)

def mantissaOk (l : List Char) : Bool :=
  match splitAtDot l with
  | none => !l.isEmpty && allDigits l
  | some (a, b) => allDigits a && allDigits b && (!a.isEmpty || !b.isEmpty)

def expOk (l : List Char) : Bool :=
  let l := match l with
    | '+' :: rest => rest
    | '-' :: rest => rest
    | l => l
  !l.isEmpty && allDigits l

def f32Grammar (l : List Char) : Bool :=
  let l := match l with
    | '+' :: rest => rest
    | '-' :: rest => rest
    | l => l
  let low := l.map Char.toLower
  if low = "inf".data ∨ low = "infinity".data ∨ low = "nan".data then true
  else
    match splitAtExp l with
    | none => mantissaOk l
    | some (m, e) => mantissaOk m && expOk e

/-- An `f32` field: the parser never computes with the value, so the model
keeps the raw accepted text. -/
structure F32 where
  raw : String
deriving DecidableEq, Repr

/-! ### Typed wrappers (`src/utils.rs`) -/

/-- `parse_num::<u64>`. -/
def parse_num_u64 (s : String) : PResult Nat :=
  match parseU64? s with
  | some v => .ok v
  | none => .error (.typed ("Failed to parse u64: " ++ s))

/-- `parse_num::<i64>`. -/
def parse_num_i64 (s : String) : PResult Int :=
  match parseI64? s with
  | some v => .ok v
  | none => .error (.typed ("Failed to parse i64: " ++ s))

/-- `parse_num::<i8>`. -/
def parse_num_i8 (s : String) : PResult Int :=
  match parseI8? s with
  | some v => .ok v
  | none => .error (.typed ("Failed to parse i8: " ++ s))

/-- `parse_num::<f32>`. -/
def parse_num_f32 (s : String) : PResult F32 :=
  if f32Grammar s.data then .ok ⟨s⟩
  else .error (.typed ("Failed to parse f32: " ++ s))

/-- `parse_bool` from `src/utils.rs`: `nil`/`0` are false, `1` is true. -/
def parse_bool (s : String) : PResult Bool :=
  if s = "nil" ∨ s = "0" then .ok false
  else if s = "1" then .ok true
  else .error (.typed ("Failed to parse bool: " ++ s))

/-- `parse_hex::<u64>` from `src/utils.rs`: strips every leading `0x`, then
base-16. -/
def parse_hex (s : String) : PResult Nat :=
  match parseHexVal? (strip0x s.data) with
  | some v => .ok v
  | none => .error (.typed ("Error parsing hex: " ++ s))

/-! ## Enumerated domain codes (`src/components/enums.rs`) -/

inductive SpellSchool where
  | Physical | Holy | Fire | Nature | Frost | Shadow | Arcane
deriving DecidableEq, Repr

/-- The discriminant values of the `SpellSchool` bit flags. -/
def SpellSchool.val : SpellSchool → Nat
  | .Physical => 1
  | .Holy => 2
  | .Fire => 4
  | .Nature => 8
  | .Frost => 16
  | .Shadow => 32
  | .Arcane => 64

/-- `SpellSchool::iter()` in declaration order. -/
def SpellSchool.all : List SpellSchool :=
  [.Physical, .Holy, .Fire, .Nature, .Frost, .Shadow, .Arcane]

/-- `SpellSchool::parse`: `-1` means absent; else a `u8` bitmask, hex when
`0x`-prefixed, and the schools whose bit is set, in iteration order. -/
def SpellSchool.parse (s : String) : PResult (Option (List SpellSchool)) :=
  if s = "-1" then .ok none
  else
    let v? := if strStarts s "0x" then parseHexU8? (strip0x s.data) else parseU8? s
    match v? with
    | some v => .ok (some (SpellSchool.all.filter fun e => Nat.land e.val v != 0))
    | none => .error (.typed ("Could not parse spell school as u8: " ++ s))

inductive PowerType where
  | Health | Mana | Rage | Focus | Energy | ComboPoints | Runes | RunicPower
  | SoulShards | LunarPower | HolyPower | Alternate | Maelstrom | Chi
  | Insanity | Obsolete | Obsolete2 | ArcaneCharges | Fury | Pain | Essence
  | RuneBlood | RuneFrost | RuneUnholy | AlternateQuest | AlternateEncounter
  | AlternateMount
deriving DecidableEq, Repr

/-- The signed discriminant values of `PowerType`. -/
def PowerType.val : PowerType → Int
  | .Health => -2
  | .Mana => 0
  | .Rage => 1
  | .Focus => 2
  | .Energy => 3
  | .ComboPoints => 4
  | .Runes => 5
  | .RunicPower => 6
  | .SoulShards => 7
  | .LunarPower => 8
  | .HolyPower => 9
  | .Alternate => 10
  | .Maelstrom => 11
  | .Chi => 12
  | .Insanity => 13
  | .Obsolete => 14
  | .Obsolete2 => 15
  | .ArcaneCharges => 16
  | .Fury => 17
  | .Pain => 18
  | .Essence => 19
  | .RuneBlood => 20
  | .RuneFrost => 21
  | .RuneUnholy => 22
  | .AlternateQuest => 23
  | .AlternateEncounter => 24
  | .AlternateMount => 25

/-- `PowerType::iter()` in declaration order. -/
def PowerType.all : List PowerType :=
  [.Health, .Mana, .Rage, .Focus, .Energy, .ComboPoints, .Runes, .RunicPower,
   .SoulShards, .LunarPower, .HolyPower, .Alternate, .Maelstrom, .Chi,
   .Insanity, .Obsolete, .Obsolete2, .ArcaneCharges, .Fury, .Pain, .Essence,
   .RuneBlood, .RuneFrost, .RuneUnholy, .AlternateQuest, .AlternateEncounter,
   .AlternateMount]

/-- `PowerType::parse`: `-1` means absent; else an `i8` code matched against
the enumeration. -/
def PowerType.parse (s : String) : PResult (Option PowerType) :=
  if s = "-1" then .ok none
  else do
    let v ← parse_num_i8 s
    match PowerType.all.find? (fun e => e.val == v) with
    | some p => .ok (some p)
    | none => .error (.typed ("Failed to find matching PowerType: " ++ s))

inductive MissType where
  | Absorb | Block | Deflect | Dodge | Evade | Immune | Miss | Parry
  | Reflect | Resist
deriving DecidableEq, Repr

/-- `strum` `EnumString`: an exact match against a variant name. -/
def MissType.fromStr (s : String) : Option MissType :=
  if s = "Absorb" then some .Absorb
  else if s = "Block" then some .Block
  else if s = "Deflect" then some .Deflect
  else if s = "Dodge" then some .Dodge
  else if s = "Evade" then some .Evade
  else if s = "Immune" then some .Immune
  else if s = "Miss" then some .Miss
  else if s = "Parry" then some .Parry
  else if s = "Reflect" then some .Reflect
  else if s = "Resist" then some .Resist
  else none

/-- `MissType::parse`: title-case the raw text, then the exact enum lookup. -/
def MissType.parse (s : String) : PResult MissType :=
  match MissType.fromStr (toCamelCase s) with
  | some m => .ok m
  | none => .error (.typed ("Failed to parse MissType: " ++ s))

inductive AuraType where
  | Buff | Debuff
deriving DecidableEq, Repr

def AuraType.fromStr (s : String) : Option AuraType :=
  if s = "Buff" then some .Buff
  else if s = "Debuff" then some .Debuff
  else none

/-- `AuraType::from_str(&x.to_camel_case())` with its error context, the form
every suffix arm uses. -/
def AuraType.parse (s : String) : PResult AuraType :=
  match AuraType.fromStr (toCamelCase s) with
  | some a => .ok a
  | none => .error (.typed ("Failed to parse AuraType: " ++ s))

inductive EnvironmentalType where
  | Drowning | Falling | Fatigue | Fire | Lava | Slime
deriving DecidableEq, Repr

def EnvironmentalType.fromStr (s : String) : Option EnvironmentalType :=
  if s = "Drowning" then some .Drowning
  else if s = "Falling" then some .Falling
  else if s = "Fatigue" then some .Fatigue
  else if s = "Fire" then some .Fire
  else if s = "Lava" then some .Lava
  else if s = "Slime" then some .Slime
  else none

def EnvironmentalType.parse (s : String) : PResult EnvironmentalType :=
  match EnvironmentalType.fromStr (toCamelCase s) with
  | some e => .ok e
  | none => .error (.typed ("Error parsing Environmental: " ++ s))

/-! ## The GUID decoder (`src/components/guid.rs`) -/

inductive CastType where
  | Local | Active | Passive | TickA | TickB
deriving DecidableEq, Repr

inductive CreatureType where
  | Creature | Pet | GameObject | Vehicle
deriving DecidableEq, Repr

/-- `CreatureType::from_str` (derived `EnumString`, exact variant names). -/
def CreatureType.fromStr (s : String) : Option CreatureType :=
  if s = "Creature" then some .Creature
  else if s = "Pet" then some .Pet
  else if s = "GameObject" then some .GameObject
  else if s = "Vehicle" then some .Vehicle
  else none

inductive GUID where
  | BattlePet (id : Nat)
  | BNetAccount (account_id : Nat)
  | Cast (cast_type : CastType)
      (server_id instance_id zone_uid spell_id cast_uid : Nat)
  | ClientActor (x y z : Nat)
  | Creature (unit_type : CreatureType) (server_id instance_id zone_uid id : Nat)
      (spawn_uid : String)
  | Follower (v : Nat)
  | Item (server_id spawn_uid : Nat)
  | Player (server_id : Nat) (player_uid : String)
  | Vignette (server_id instance_id zone_uid spawn_uid : Nat)
deriving DecidableEq, Repr

/-- `GUID::parse`: the all-zero sentinel is "no identity"; otherwise the
first dash-separated token selects the variant and the positional segments
are decoded exactly as the source indexes them. -/
def GUID.parse (s : String) : PResult (Option GUID) :=
  if s = "0000000000000000" then .ok none
  else
    let parts := splitDash s
    do
    let p0 ← idx parts 0
    if p0 = "Player" then do
      let f1 ← idx parts 1
      let server_id ← parse_num_u64 f1
      let f2 ← idx parts 2
      .ok (some (.Player server_id f2))
    else if p0 = "Pet" ∨ p0 = "Creature" ∨ p0 = "GameObject" ∨ p0 = "Vehicle" then
      match CreatureType.fromStr p0 with
      | none => .error (.typed ("Error parsing CreatureType: " ++ p0))
      | some unit_type => do
        let f2 ← idx parts 2
        let server_id ← parse_num_u64 f2
        let f3 ← idx parts 3
        let instance_id ← parse_num_u64 f3
        let f4 ← idx parts 4
        let zone_uid ← parse_num_u64 f4
        let f5 ← idx parts 5
        let id ← parse_num_u64 f5
        let f6 ← idx parts 6
        .ok (some (.Creature unit_type server_id instance_id zone_uid id f6))
    else .error (.typed ("GUID type not found: " ++ p0))

/-! ## Actor and SpellInfo

Modelled from the spec: the module `components/common.rs` (types `Actor` and
`SpellInfo` imported by `events.rs` and `suffixes.rs`) is not present in the
snapshot; section 4.4 of the spec fixes both decoders. -/

structure SpellInfo where
  id : Nat
  name : String
  school : Option (List SpellSchool)
deriving DecidableEq, Repr

/-- Modelled from the spec: `SpellInfo::parse(3 fields)` — numeric id, name
text, school bitmask where the absent school (`-1`) is a valid state. -/
def SpellInfo.parse (line : List String) : PResult SpellInfo := do
  let f0 ← idx line 0
  let id ← parse_num_u64 f0
  let f1 ← idx line 1
  let f2 ← idx line 2
  let school ← SpellSchool.parse f2
  .ok ⟨id, f1, school⟩

structure Actor where
  guid : GUID
  name : String
  flags : Nat
  raid_flags : Option Nat
deriving DecidableEq, Repr

/-- Modelled from the spec: `Actor::parse(4 fields)` — an absent GUID makes
the whole actor absent (`Ok(None)`); else name text, hex flags, and raid
flags that are absent when the field is `nil`. -/
def Actor.parse (line : List String) : PResult (Option Actor) := do
  let f0 ← idx line 0
  match ← GUID.parse f0 with
  | none => .ok none
  | some guid => do
    let f1 ← idx line 1
    let f2 ← idx line 2
    let flags ← parse_hex f2
    let f3 ← idx line 3
    let raid_flags ←
      if f3 = "nil" then .ok (none : Option Nat)
      else do
        let v ← parse_hex f3
        .ok (some v)
    .ok (some ⟨guid, f1, flags, raid_flags⟩)

/-! ## The prefix dispatcher (`src/components/prefixes.rs`) -/

inductive Prefix where
  | Swing
  | Range (si : SpellInfo)
  | Spell (si : Option SpellInfo)
  | SpellPeriodic (si : SpellInfo)
  | SpellBuilding (si : SpellInfo)
  | Environmental (t : EnvironmentalType)
deriving DecidableEq, Repr

/-- `Prefix::parse`: a starts-with chain in source order; the generic
`SPELL` arm takes an optional spell-info block (0 or 3 fields). -/
def Prefix.parse (event_type : String) (line : List String) : PResult Prefix :=
  if strStarts event_type "SWING" then .ok .Swing
  else if strStarts event_type "RANGE" then do
    let seg ← slice line 0 3
    let si ← SpellInfo.parse seg
    .ok (.Range si)
  else if strStarts event_type "SPELL_PERIODIC" then do
    let seg ← slice line 0 3
    let si ← SpellInfo.parse seg
    .ok (.SpellPeriodic si)
  else if strStarts event_type "SPELL_BUILDING" then do
    let seg ← slice line 0 3
    let si ← SpellInfo.parse seg
    .ok (.SpellBuilding si)
  else if strStarts event_type "SPELL" then
    match line.length with
    | 0 => .ok (.Spell none)
    | 3 => do
      let seg ← slice line 0 3
      let si ← SpellInfo.parse seg
      .ok (.Spell (some si))
    | _ => .error (.typed "Bad number of entries for Spell")
  else if strStarts event_type "ENVIRONMENTAL" then do
    let f0 ← idx line 0
    let t ← EnvironmentalType.parse f0
    .ok (.Environmental t)
  else .error (.typed ("Unknown prefix: " ++ event_type))

/-- `Prefix::entries_to_consume`: how many leading fields the prefix owns. -/
def Prefix.entries_to_consume (event_type : String) : PResult Nat :=
  if strStarts event_type "SWING" then .ok 0
  else if strStarts event_type "RANGE" ∨ strStarts event_type "SPELL_PERIODIC"
      ∨ strStarts event_type "SPELL_BUILDING" ∨ strStarts event_type "SPELL" then .ok 3
  else if strStarts event_type "ENVIRONMENTAL" then .ok 1
  else .error (.typed ("Unknown prefix: " ++ event_type))

/-! ## The suffix dispatcher (`src/components/suffixes.rs`) -/

inductive Suffix where
  | Damage (amount base_amount : Nat) (overkill : Option Nat)
      (school : Option (List SpellSchool)) (resisted blocked : Nat)
      (absorbed : Int) (critical glancing crushing : Bool)
  | DamageLanded (amount base_amount : Nat) (overkill : Option Nat)
      (school : Option (List SpellSchool)) (resisted blocked absorbed : Nat)
      (critical glancing crushing : Bool)
  | Missed (miss_type : MissType) (offhand : Bool)
      (amount_missed base_amount : Nat) (critical : Bool)
  | Heal (amount base_amount overhealing absorbed : Nat) (critical : Bool)
  | HealAbsorbed (actor : Option Actor) (spell_info : SpellInfo)
      (absorbed_amount total_amount : Nat)
  | Absorbed (absorb_caster : Actor) (absorb_spell_info : SpellInfo)
      (absorbed_amount : Int) (base_amount : Nat) (critical : Bool)
  | Energize (amount over_energize : F32) (power_type : PowerType)
      (max_power : Nat)
  | Drain (amount : Nat) (power_type : PowerType) (extra_amount max_power : Nat)
  | Leech (amount : Nat) (power_type : PowerType) (extra_amount : Nat)
  | Interrupt (spell_info : SpellInfo)
  | Dispel (spell_info : SpellInfo) (aura_type : AuraType)
  | DispelFailed (spell_info : SpellInfo)
  | Stolen (spell_info : SpellInfo) (aura_type : AuraType)
  | ExtraAttacks (amount : Nat)
  | AuraApplied (aura_type : AuraType) (amount : Option Nat)
  | AuraRemoved (aura_type : AuraType) (amount : Option Nat)
  | AuraAppliedDose (aura_type : AuraType) (amount : Nat)
  | AuraRemovedDose (aura_type : AuraType) (amount : Nat)
  | AuraRefresh (aura_type : AuraType)
  | AuraBroken (aura_type : AuraType)
  | AuraBrokenSpell (spell_info : SpellInfo) (aura_type : AuraType)
  | CastStart
  | CastSuccess
  | CastFailed (failed_type : String)
  | Instakill (unconscious_on_death : Bool)
  | DurabilityDamage
  | DurabilityDamageAll
  | Create
  | Summon
  | Resurrect
  | EmpowerStart
  | EmpowerEnd (empowered_rank : Nat)
  | EmpowerInterrupt (empowered_rank : Nat)
deriving DecidableEq, Repr

/-- `Suffix::parse`: the ends-with guard chain in the exact source order
(`DAMAGE` is tested first, before the longer suffixes that follow it), with
each arm's field decoding in the source's evaluation order. -/
def Suffix.parse (event_type : String) (line : List String) : PResult Suffix :=
  if strEnds event_type "DAMAGE" then do
    let f0 ← idx line 0
    let amount ← parse_num_u64 f0
    let f1 ← idx line 1
    let base_amount ← parse_num_u64 f1
    let f2 ← idx line 2
    let overkill ←
      if f2 = "-1" then .ok (none : Option Nat)
      else do
        let v ← parse_num_u64 f2
        .ok (some v)
    let f3 ← idx line 3
    let school ← SpellSchool.parse f3
    let f4 ← idx line 4
    let resisted ← parse_num_u64 f4
    let f5 ← idx line 5
    let blocked ← parse_num_u64 f5
    let f6 ← idx line 6
    let absorbed ← parse_num_i64 f6
    let f7 ← idx line 7
    let critical ← parse_bool f7
    let f8 ← idx line 8
    let glancing ← parse_bool f8
    let f9 ← idx line 9
    let crushing ← parse_bool f9
    .ok (.Damage amount base_amount overkill school resisted blocked absorbed
      critical glancing crushing)
  else if strEnds event_type "DAMAGE_LANDED" then do
    let f0 ← idx line 0
    let amount ← parse_num_u64 f0
    let f1 ← idx line 1
    let base_amount ← parse_num_u64 f1
    let f2 ← idx line 2
    let overkill ←
      if f2 = "-1" then .ok (none : Option Nat)
      else do
        let v ← parse_num_u64 f2
        .ok (some v)
    let f3 ← idx line 3
    let school ← SpellSchool.parse f3
    let f4 ← idx line 4
    let resisted ← parse_num_u64 f4
    let f5 ← idx line 5
    let blocked ← parse_num_u64 f5
    let f6 ← idx line 6
    let absorbed ← parse_num_u64 f6
    let f7 ← idx line 7
    let critical ← parse_bool f7
    let f8 ← idx line 8
    let glancing ← parse_bool f8
    let f9 ← idx line 9
    let crushing ← parse_bool f9
    .ok (.DamageLanded amount base_amount overkill school resisted blocked
      absorbed critical glancing crushing)
  else if strEnds event_type "MISSED" then do
    let f0 ← idx line 0
    let miss_type ← MissType.parse f0
    let amounts ←
      match miss_type with
      | .Absorb => do
        let f2 ← idx line 2
        let amount_missed ← parse_num_u64 f2
        let f3 ← idx line 3
        let base_amount ← parse_num_u64 f3
        let f4 ← idx line 4
        let critical ← parse_bool f4
        .ok (amount_missed, base_amount, critical)
      | _ => .ok ((0 : Nat), (0 : Nat), false)
    let f1 ← idx line 1
    let offhand ← parse_bool f1
    .ok (.Missed miss_type offhand amounts.1 amounts.2.1 amounts.2.2)
  else if strEnds event_type "HEAL" then do
    let f0 ← idx line 0
    let amount ← parse_num_u64 f0
    let f1 ← idx line 1
    let base_amount ← parse_num_u64 f1
    let f2 ← idx line 2
    let overhealing ← parse_num_u64 f2
    let f3 ← idx line 3
    let absorbed ← parse_num_u64 f3
    let f4 ← idx line 4
    let critical ← parse_bool f4
    .ok (.Heal amount base_amount overhealing absorbed critical)
  else if strEnds event_type "HEAL_ABSORBED" then do
    let seg ← slice line 0 4
    let actor ← Actor.parse seg
    let seg2 ← slice line 4 7
    let spell_info ← SpellInfo.parse seg2
    let f7 ← idx line 7
    let absorbed_amount ← parse_num_u64 f7
    let f8 ← idx line 8
    let total_amount ← parse_num_u64 f8
    .ok (.HealAbsorbed actor spell_info absorbed_amount total_amount)
  else if strEnds event_type "ABSORBED" then do
    let seg ← slice line 0 4
    let actor? ← Actor.parse seg
    let absorb_caster ← unwrapOpt actor?
    let seg2 ← slice line 4 7
    let absorb_spell_info ← SpellInfo.parse seg2
    let f7 ← idx line 7
    let absorbed_amount ← parse_num_i64 f7
    let f8 ← idx line 8
    let base_amount ← parse_num_u64 f8
    let f9 ← idx line 9
    let critical ← parse_bool f9
    .ok (.Absorbed absorb_caster absorb_spell_info absorbed_amount base_amount
      critical)
  else if strEnds event_type "ENERGIZE" then do
    let f0 ← idx line 0
    let amount ← parse_num_f32 f0
    let f1 ← idx line 1
    let over_energize ← parse_num_f32 f1
    let f2 ← idx line 2
    let pt? ← PowerType.parse f2
    let power_type ←
      match pt? with
      | some p => .ok p
      | none => .error (.typed ("Invalid power type: " ++ f2))
    let f3 ← idx line 3
    let max_power ← parse_num_u64 f3
    .ok (.Energize amount over_energize power_type max_power)
  else if strEnds event_type "DRAIN" then do
    let f0 ← idx line 0
    let amount ← parse_num_u64 f0
    let f1 ← idx line 1
    let pt? ← PowerType.parse f1
    let power_type ←
      match pt? with
      | some p => .ok p
      | none => .error (.typed ("Invalid power type: " ++ f1))
    let f2 ← idx line 2
    let extra_amount ← parse_num_u64 f2
    let f3 ← idx line 3
    let max_power ← parse_num_u64 f3
    .ok (.Drain amount power_type extra_amount max_power)
  else if strEnds event_type "LEECH" then do
    let f0 ← idx line 0
    let amount ← parse_num_u64 f0
    let f1 ← idx line 1
    let pt? ← PowerType.parse f1
    let power_type ←
      match pt? with
      | some p => .ok p
      | none => .error (.typed ("Invalid power type: " ++ f1))
    let f2 ← idx line 2
    let extra_amount ← parse_num_u64 f2
    .ok (.Leech amount power_type extra_amount)
  else if strEnds event_type "EMPOWER_INTERRUPT" then do
    let f0 ← idx line 0
    let empowered_rank ← parse_num_u64 f0
    .ok (.EmpowerInterrupt empowered_rank)
  else if strEnds event_type "INTERRUPT" then do
    let seg ← slice line 0 3
    let spell_info ← SpellInfo.parse seg
    .ok (.Interrupt spell_info)
  else if strEnds event_type "DISPEL" then do
    let seg ← slice line 0 3
    let spell_info ← SpellInfo.parse seg
    let f3 ← idx line 3
    let aura_type ← AuraType.parse f3
    .ok (.Dispel spell_info aura_type)
  else if strEnds event_type "DISPEL_FAILED" then do
    let seg ← slice line 0 3
    let spell_info ← SpellInfo.parse seg
    .ok (.DispelFailed spell_info)
  else if strEnds event_type "STOLEN" then do
    let seg ← slice line 0 3
    let spell_info ← SpellInfo.parse seg
    let f3 ← idx line 3
    let aura_type ← AuraType.parse f3
    .ok (.Stolen spell_info aura_type)
  else if strEnds event_type "EXTRA_ATTACKS" then do
    let f0 ← idx line 0
    let amount ← parse_num_u64 f0
    .ok (.ExtraAttacks amount)
  else if strEnds event_type "AURA_APPLIED" then do
    let amount ←
      if line.length < 2 then .ok (none : Option Nat)
      else do
        let f1 ← idx line 1
        let v ← parse_num_u64 f1
        .ok (some v)
    let f0 ← idx line 0
    let aura_type ← AuraType.parse f0
    .ok (.AuraApplied aura_type amount)
  else if strEnds event_type "AURA_REMOVED" then do
    let amount ←
      if line.length < 2 then .ok (none : Option Nat)
      else do
        let f1 ← idx line 1
        let v ← parse_num_u64 f1
        .ok (some v)
    let f0 ← idx line 0
    let aura_type ← AuraType.parse f0
    .ok (.AuraRemoved aura_type amount)
  else if strEnds event_type "AURA_APPLIED_DOSE" then do
    let f0 ← idx line 0
    let aura_type ← AuraType.parse f0
    let f1 ← idx line 1
    let amount ← parse_num_u64 f1
    .ok (.AuraAppliedDose aura_type amount)
  else if strEnds event_type "AURA_REMOVED_DOSE" then do
    let f0 ← idx line 0
    let aura_type ← AuraType.parse f0
    let f1 ← idx line 1
    let amount ← parse_num_u64 f1
    .ok (.AuraRemovedDose aura_type amount)
  else if strEnds event_type "AURA_REFRESH" then do
    let f0 ← idx line 0
    let aura_type ← AuraType.parse f0
    .ok (.AuraRefresh aura_type)
  else if strEnds event_type "AURA_BROKEN" then do
    let f0 ← idx line 0
    let aura_type ← AuraType.parse f0
    .ok (.AuraBroken aura_type)
  else if strEnds event_type "AURA_BROKEN_SPELL" then do
    let seg ← slice line 0 3
    let spell_info ← SpellInfo.parse seg
    let f3 ← idx line 3
    let aura_type ← AuraType.parse f3
    .ok (.AuraBrokenSpell spell_info aura_type)
  else if strEnds event_type "CAST_START" then .ok .CastStart
  else if strEnds event_type "CAST_SUCCESS" then .ok .CastSuccess
  else if strEnds event_type "CAST_FAILED" then do
    let f0 ← idx line 0
    .ok (.CastFailed f0)
  else if strEnds event_type "INSTAKILL" then do
    let f0 ← idx line 0
    let unconscious_on_death ← parse_bool f0
    .ok (.Instakill unconscious_on_death)
  else if strEnds event_type "DURABILITY_DAMAGE" then .ok .DurabilityDamage
  else if strEnds event_type "DURABILITY_DAMAGE_ALL" then .ok .DurabilityDamageAll
  else if strEnds event_type "CREATE" then .ok .Create
  else if strEnds event_type "SUMMON" then .ok .Summon
  else if strEnds event_type "RESURRECT" then .ok .Resurrect
  else if strEnds event_type "EMPOWER_START" then .ok .EmpowerStart
  else if strEnds event_type "EMPOWER_END" then do
    let f0 ← idx line 0
    let empowered_rank ← parse_num_u64 f0
    .ok (.EmpowerEnd empowered_rank)
  else .error (.typed ("Unknown suffix: " ++ event_type))

/-- The allow-list of `Suffix::has_advanced_params`, verbatim (the repeated
`CAST_SUCCESS` entry included). -/
def advanced_suffixes : List String :=
  ["DAMAGE", "DAMAGE_LANDED", "HEAL", "CAST_SUCCESS", "ENERGIZE", "DRAIN",
   "LEECH", "STOLEN", "CAST_SUCCESS"]

/-- The deny-list of `Suffix::has_advanced_params`, verbatim. -/
def non_advanced_suffixes : List String :=
  ["AURA_APPLIED", "AURA_REMOVED", "MISSED", "HEAL_ABSORBED", "ABSORBED",
   "EMPOWER_INTERRUPT", "INTERRUPT", "DISPEL_FAILED", "EXTRA_ATTACKS",
   "AURA_APPLIED_DOSE", "AURA_REMOVED_DOSE", "AURA_REFRESH", "AURA_BROKEN",
   "AURA_BROKEN_SPELL", "CAST_START", "CAST_FAILED", "INSTAKILL",
   "DURABILITY_DAMAGE", "DURABILITY_DAMAGE_ALL", "CREATE", "SUMMON",
   "RESURRECT", "EMPOWER_START", "EMPOWER_END", "DISPEL"]

/-- `Suffix::has_advanced_params`: an ends-with test against the allow-list
first, then the deny-list, else an unknown-suffix error. -/
def Suffix.has_advanced_params (event_type : String) : PResult Bool :=
  if advanced_suffixes.any (fun s => strEnds event_type s) then .ok true
  else if non_advanced_suffixes.any (fun s => strEnds event_type s) then .ok false
  else .error (.typed ("Unknown suffix: " ++ event_type))

/-! ## The advanced-state block (`src/components/advanced.rs`) -/

structure PowerInfo where
  power_type : Option PowerType
  current_power : Nat
  max_power : Nat
  power_cost : Nat
deriving DecidableEq, Repr

/-- One zipped tuple of the four pipe-segment streams, decoded in the order
the `izip!` closure evaluates its fields. -/
def PowerInfo.parseOne : String × String × String × String → PResult PowerInfo
  | (t, cur, mx, cost) => do
    let power_type ← PowerType.parse t
    let current_power ← parse_num_u64 cur
    let max_power ← parse_num_u64 mx
    let power_cost ← parse_num_u64 cost
    .ok ⟨power_type, current_power, max_power, power_cost⟩

/-- `izip!` over four lists: truncates to the shortest. -/
def zip4 {α β γ δ : Type} : List α → List β → List γ → List δ →
    List (α × β × γ × δ)
  | a :: as_, b :: bs, c :: cs, d :: ds => (a, b, c, d) :: zip4 as_ bs cs ds
  | _, _, _, _ => []

/-- `PowerInfo::parse`: asserts exactly 4 cells, splits each on `|`, zips the
four segment streams and decodes each tuple. -/
def PowerInfo.parse (line : List String) : PResult (List PowerInfo) :=
  match line with
  | [a, b, c, d] =>
    mapME PowerInfo.parseOne (zip4 (splitPipe a) (splitPipe b) (splitPipe c) (splitPipe d))
  | _ => .error (.crash "assertion failed: line.len() == 4")

structure Position where
  x : F32
  y : F32
  facing : F32
deriving DecidableEq, Repr

/-- `Position::parse`: asserts exactly 2 x/y cells; facing arrives as a
separate field. -/
def Position.parse (line_xy : List String) (line_facing : String) :
    PResult Position :=
  match line_xy with
  | [a, b] => do
    let x ← parse_num_f32 a
    let y ← parse_num_f32 b
    let facing ← parse_num_f32 line_facing
    .ok ⟨x, y, facing⟩
  | _ => .error (.crash "assertion failed: line_xy.len() == 2")

structure AdvancedParams where
  info_guid : Option GUID
  owner_guid : Option GUID
  current_hp : Nat
  max_hp : Nat
  attack_power : Nat
  spell_power : Nat
  armor : Nat
  absorb : Nat
  power_info : List PowerInfo
  position : Position
  ui_map_id : Nat
  level_or_ilvl : Nat
deriving DecidableEq, Repr

/-- `AdvancedParams::parse`: asserts exactly 17 fields; positions 12-13 are
x/y, 15 is facing, 14 is the map id, 16 the level, exactly as indexed. -/
def AdvancedParams.parse (line : List String) : PResult AdvancedParams :=
  match line with
  | [a0, a1, a2, a3, a4, a5, a6, a7, a8, a9, a10, a11, a12, a13, a14, a15, a16] => do
    let info_guid ← GUID.parse a0
    let owner_guid ← GUID.parse a1
    let current_hp ← parse_num_u64 a2
    let max_hp ← parse_num_u64 a3
    let attack_power ← parse_num_u64 a4
    let spell_power ← parse_num_u64 a5
    let armor ← parse_num_u64 a6
    let absorb ← parse_num_u64 a7
    let power_info ← PowerInfo.parse [a8, a9, a10, a11]
    let position ← Position.parse [a12, a13] a15
    let ui_map_id ← parse_num_u64 a14
    let level_or_ilvl ← parse_num_u64 a16
    .ok ⟨info_guid, owner_guid, current_hp, max_hp, attack_power, spell_power,
      armor, absorb, power_info, position, ui_map_id, level_or_ilvl⟩
  | _ => .error (.crash "assertion failed: line.len() == 17")

/-! ## The combatant-info decoder (`src/components/combatant.rs`)

The source drives its destructive bracket extraction with the external
`regex` crate.  The concrete patterns it uses are reproduced here as direct
scanners with the engine's leftmost, non-overlapping match policy; the
pathological backtracking cases that cannot arise on comma-joined log fields
are not modelled. -/

structure CharacterStats where
  strength : Nat
  agility : Nat
  stamina : Nat
  intelligence : Nat
  dodge : Nat
  parry : Nat
  block : Nat
  crit_melee : Nat
  crit_ranged : Nat
  crit_spell : Nat
  speed : Nat
  leech : Nat
  haste_melee : Nat
  haste_range : Nat
  haste_spell : Nat
  avoidance : Nat
  mastery : Nat
  versatility_damage_done : Nat
  versatility_healing_done : Nat
  versatility_damage_taken : Nat
  armor : Nat
deriving DecidableEq, Repr

/-- `CharacterStats::parse`: 21 positional numeric fields. -/
def CharacterStats.parse (line : List String) : PResult CharacterStats := do
  let v0 ← idx line 0 >>= parse_num_u64
  let v1 ← idx line 1 >>= parse_num_u64
  let v2 ← idx line 2 >>= parse_num_u64
  let v3 ← idx line 3 >>= parse_num_u64
  let v4 ← idx line 4 >>= parse_num_u64
  let v5 ← idx line 5 >>= parse_num_u64
  let v6 ← idx line 6 >>= parse_num_u64
  let v7 ← idx line 7 >>= parse_num_u64
  let v8 ← idx line 8 >>= parse_num_u64
  let v9 ← idx line 9 >>= parse_num_u64
  let v10 ← idx line 10 >>= parse_num_u64
  let v11 ← idx line 11 >>= parse_num_u64
  let v12 ← idx line 12 >>= parse_num_u64
  let v13 ← idx line 13 >>= parse_num_u64
  let v14 ← idx line 14 >>= parse_num_u64
  let v15 ← idx line 15 >>= parse_num_u64
  let v16 ← idx line 16 >>= parse_num_u64
  let v17 ← idx line 17 >>= parse_num_u64
  let v18 ← idx line 18 >>= parse_num_u64
  let v19 ← idx line 19 >>= parse_num_u64
  let v20 ← idx line 20 >>= parse_num_u64
  .ok ⟨v0, v1, v2, v3, v4, v5, v6, v7, v8, v9, v10, v11, v12, v13, v14, v15,
    v16, v17, v18, v19, v20⟩

structure PVPStats where
  honor_level : Nat
  season : Nat
  rating : Nat
  tier : Nat
deriving DecidableEq, Repr

/-- `PVPStats::parse`: 4 positional numeric fields. -/
def PVPStats.parse (line : List String) : PResult PVPStats := do
  let honor_level ← idx line 0 >>= parse_num_u64
  let season ← idx line 1 >>= parse_num_u64
  let rating ← idx line 2 >>= parse_num_u64
  let tier ← idx line 3 >>= parse_num_u64
  .ok ⟨honor_level, season, rating, tier⟩

inductive Faction where
  | Horde | Alliance
deriving DecidableEq, Repr

/-- `Faction::parse`: `0` is Horde, `1` is Alliance. -/
def Faction.parse (s : String) : PResult Faction :=
  if s = "0" then .ok .Horde
  else if s = "1" then .ok .Alliance
  else .error (.typed ("Failed to parse Faction: " ++ s))

structure ClassTalent where
  node_id : Nat
  entry_id : Nat
  rank : Nat
deriving DecidableEq, Repr

/-- `ClassTalent::parse` on one `"(a,b,c)"` match: strip the outer
parentheses, split on commas, require exactly 3 numbers. -/
def ClassTalent.parse (s : String) : PResult ClassTalent :=
  if s.data.length ≥ 2 then do
    let body := (s.data.drop 1).dropLast
    let vals ← mapME parse_num_u64 ((splitOnChar ',' body).map fun l => String.mk l)
    match vals with
    | [node_id, entry_id, rank] => .ok ⟨node_id, entry_id, rank⟩
    | _ => .error (.typed "incorrect number of values, expected 3")
  else .error (.crash "byte slice out of range")

/-- Body of the class-talent pattern `(?:\d+,?)+`: comma-separated digit
groups, one trailing comma tolerated. -/
def talentBodyOk (l : List Char) : Bool :=
  let segs := splitOnChar ',' l
  let segs := if segs.getLast? = some [] then segs.dropLast else segs
  !segs.isEmpty && segs.all fun s => !s.isEmpty && allDigits s

/-- Leftmost non-overlapping matches of the source's class-talent pattern
`\(((?:\d+,?)+)\)`. -/
def talentFindAux : List Char → List (List Char)
  | [] => []
  | '(' :: rest =>
    let run := rest.takeWhile fun c => c.isDigit || c = ','
    if talentBodyOk run ∧ (rest.drop run.length).headI = ')' then
      ('(' :: run ++ [')']) :: talentFindAux (rest.drop (run.length + 1))
    else talentFindAux rest
  | _ :: rest => talentFindAux rest
termination_by l => l.length
decreasing_by
  · simp only [List.length_cons, List.length_drop]
    omega
  · simp only [List.length_cons]
    omega
  · simp only [List.length_cons]
    omega

/-- `ClassTalent::parse_vec`: every pattern match in the section, each
decoded as a talent triple. -/
def ClassTalent.parse_vec (s : String) : PResult (List ClassTalent) :=
  mapME ClassTalent.parse ((talentFindAux s.data).map fun l => String.mk l)

/-- `PVPTalents` (`[u64; 4]`): the `"(a,b,c,d),"` section with its outer
`(`, `)` and trailing comma stripped, exactly 4 numbers. -/
def PVPTalents.parse (s : String) : PResult (List Nat) :=
  if s.data.length ≥ 3 then do
    let body := (s.data.drop 1).dropLast.dropLast
    let ids ← mapME parse_num_u64 ((splitOnChar ',' body).map fun l => String.mk l)
    if ids.length = 4 then .ok ids
    else .error (.typed ("Incorrect number of ids: " ++ s))
  else .error (.crash "byte slice out of range")

structure Enchant where
  permanent_id : Nat
  temp_id : Nat
  on_use_id : Nat
deriving DecidableEq, Repr

/-- `Enchant::parse`: `"(),"` is absent; else strip `(` and `),` and take the
first three comma-separated numbers, indexing as the source does. -/
def Enchant.parse (s : String) : PResult (Option Enchant) :=
  if s = "()," then .ok none
  else if s.data.length ≥ 3 then do
    let parts := (splitOnChar ',' ((s.data.drop 1).dropLast.dropLast)).map
      fun l => String.mk l
    let permanent_id ← idx parts 0 >>= parse_num_u64
    let temp_id ← idx parts 1 >>= parse_num_u64
    let on_use_id ← idx parts 2 >>= parse_num_u64
    .ok (some ⟨permanent_id, temp_id, on_use_id⟩)
  else .error (.crash "byte slice out of range")

structure EquippedItem where
  item_id : Nat
  ilvl : Nat
  enchant : Option Enchant
  bonus_ids : List Nat
  gem_ids : List Nat
deriving DecidableEq, Repr

/-- `EquippedItem::parse` on the five captures of one item match. -/
def EquippedItem.parse (parts : List String) : PResult (Option EquippedItem) :=
  if parts.length = 5 then do
    let p0 ← idx parts 0
    if p0 = "0" then .ok none
    else do
      let p3 ← idx parts 3
      let bonus_ids ←
        if p3 = "()," then .ok ([] : List Nat)
        else if p3.data.length ≥ 3 then
          mapME parse_num_u64
            ((splitOnChar ',' ((p3.data.drop 1).dropLast.dropLast)).map
              fun l => String.mk l)
        else .error (.crash "byte slice out of range")
      let p4 ← idx parts 4
      let gem_ids ←
        if p4 = "()" then .ok ([] : List Nat)
        else if p4.data.length ≥ 2 then
          mapME parse_num_u64
            ((splitOnChar ',' ((p4.data.drop 1).dropLast)).map
              fun l => String.mk l)
        else .error (.crash "byte slice out of range")
      let item_id ← parse_num_u64 p0
      let ilvl ← idx parts 1 >>= parse_num_u64
      let enchant ← idx parts 2 >>= Enchant.parse
      .ok (some ⟨item_id, ilvl, enchant, bonus_ids, gem_ids⟩)
  else .error (.typed "Not enough sections: expected 5")

/-- One lazy group `\(.*?\),?`: the text from an opening `(` to the first
`)`, then one optional comma; returns the match and the remainder. -/
def lazyParen : List Char → Option (List Char × List Char)
  | '(' :: rest =>
    match splitAtChar ')' rest with
    | some (body, after) =>
      match after with
      | ',' :: after2 => some ('(' :: body ++ [')', ','], after2)
      | _ => some ('(' :: body ++ [')'], after)
    | none => none
  | _ => none

/-- One attempted match of the item pattern
`(\d+),(\d+),(\(.*?\),?)(\(.*?\),?)(\(.*?\),?)` at the head of the input:
the five captures and the remainder. -/
def tryItem (l : List Char) :
    Option ((String × String × String × String × String) × List Char) :=
  let (d1, r1) := l.span Char.isDigit
  if d1.isEmpty then none
  else
    match r1 with
    | ',' :: r2 =>
      let (d2, r3) := r2.span Char.isDigit
      if d2.isEmpty then none
      else
        match r3 with
        | ',' :: r4 =>
          match lazyParen r4 with
          | some (g3, r5) =>
            match lazyParen r5 with
            | some (g4, r6) =>
              match lazyParen r6 with
              | some (g5, r7) =>
                some ((String.mk d1, String.mk d2, String.mk g3, String.mk g4,
                  String.mk g5), r7)
              | none => none
            | none => none
          | none => none
        | _ => none
    | _ => none

/-- Leftmost non-overlapping item matches; the fuel equals the scanned length
and every step consumes at least one character, so it never runs dry. -/
def itemFindAux : Nat → List Char →
    List (String × String × String × String × String)
  | 0, _ => []
  | _, [] => []
  | fuel + 1, c :: rest =>
    match tryItem (c :: rest) with
    | some (caps, r) => caps :: itemFindAux fuel r
    | none => itemFindAux fuel rest

/-- `EquippedItem::parse_vec`: every item match decoded, empty slots
(`item_id == "0"`) flattened away. -/
def EquippedItem.parse_vec (s : String) : PResult (List EquippedItem) := do
  let items ← mapME
    (fun caps => EquippedItem.parse
      [caps.1, caps.2.1, caps.2.2.1, caps.2.2.2.1, caps.2.2.2.2])
    (itemFindAux s.data.length s.data)
  .ok (items.filterMap id)

structure InterestingAura where
  caster : Option GUID
  aura_id : Nat
deriving DecidableEq, Repr

/-- `InterestingAura::parse` on one 2-chunk. -/
def InterestingAura.parse (parts : List String) : PResult InterestingAura :=
  if parts.length = 2 then do
    let f0 ← idx parts 0
    let caster ← GUID.parse f0
    let f1 ← idx parts 1
    let aura_id ← parse_num_u64 f1
    .ok ⟨caster, aura_id⟩
  else .error (.typed "Not enough parts for InterestingAura: expected 2")

/-- `Itertools::chunks(2)`. -/
def chunks2 {α : Type} : List α → List (List α)
  | [] => []
  | [x] => [[x]]
  | x :: y :: rest => [x, y] :: chunks2 rest

/-- `InterestingAura::parse_vec`: `"[],"` is empty; else strip `[` and `],`,
split on commas and decode pairs. -/
def InterestingAura.parse_vec (s : String) : PResult (List InterestingAura) :=
  if s = "[]," then .ok []
  else if s.data.length ≥ 3 then
    mapME InterestingAura.parse
      (chunks2 ((splitOnChar ',' ((s.data.drop 1).dropLast.dropLast)).map
        fun l => String.mk l))
  else .error (.crash "byte slice out of range")

/-- The end of one lazy square-bracket match `\[.*?],`: the least position
where `]` is immediately followed by `,`. -/
def squareEndIdx : List Char → Option Nat
  | ']' :: ',' :: _ => some 0
  | _ :: rest => (squareEndIdx rest).map (· + 1)
  | [] => none

/-- `match_replace_all` with the pattern `(\[.*?]),`: the leftmost
non-overlapping square-bracket sections (trailing comma included) and the
input with those sections removed. -/
def matchSquare : List Char → List (List Char) × List Char
  | [] => ([], [])
  | '[' :: rest =>
    match squareEndIdx rest with
    | some j =>
      let m := '[' :: rest.take (j + 2)
      let p := matchSquare (rest.drop (j + 2))
      (m :: p.1, p.2)
    | none =>
      let p := matchSquare rest
      (p.1, '[' :: p.2)
  | c :: rest =>
    let p := matchSquare rest
    (p.1, c :: p.2)
termination_by l => l.length
decreasing_by
  · simp only [List.length_cons, List.length_drop]
    omega
  · simp only [List.length_cons]
    omega
  · simp only [List.length_cons]
    omega

/-- `match_replace_all` with the pattern `\([\d,?]+\),`: the leftmost
non-overlapping parenthesised digit/comma sections followed by a comma
(trailing comma included in the match) and the input with them removed. -/
def matchParen : List Char → List (List Char) × List Char
  | [] => ([], [])
  | '(' :: rest =>
    let run := rest.takeWhile fun c => c.isDigit || c = ',' || c = '?'
    if ¬run.isEmpty ∧ rest.drop run.length = ')' :: ',' :: rest.drop (run.length + 2) then
      let m := '(' :: run ++ [')', ',']
      let p := matchParen (rest.drop (run.length + 2))
      (m :: p.1, p.2)
    else
      let p := matchParen rest
      (p.1, '(' :: p.2)
  | c :: rest =>
    let p := matchParen rest
    (p.1, c :: p.2)
termination_by l => l.length
decreasing_by
  · simp only [List.length_cons, List.length_drop]
    omega
  · simp only [List.length_cons]
    omega
  · simp only [List.length_cons]
    omega

structure CombatantInfo where
  guid : GUID
  faction : Faction
  stats : CharacterStats
  class_talents : List ClassTalent
  pvp_talents : List Nat
  equipped_items : List EquippedItem
  interesting_auras : List InterestingAura
  pvp_stats : PVPStats
deriving DecidableEq, Repr

/-- `CombatantInfo::parse`: re-join the fields on commas, destructively
extract the three square-bracket sections then the one parenthesised
pvp-talent section, re-split the remainder on commas, and decode each part
positionally. -/
def CombatantInfo.parse (line : List String) : PResult CombatantInfo := do
  let line2 := joinComma line
  let sq := matchSquare line2.data
  let secs := sq.1.map fun l => String.mk l
  if secs.length = 3 then do
    let pr := matchParen sq.2
    let secs_pvp := pr.1.map fun l => String.mk l
    if secs_pvp.length = 1 then do
      let line5 := (splitOnChar ',' pr.2).map fun l => String.mk l
      let f0 ← idx line5 0
      let g ← GUID.parse f0
      let guid ← unwrapOpt g
      let f1 ← idx line5 1
      let faction ← Faction.parse f1
      let statsSeg ← slice line5 2 23
      let stats ← CharacterStats.parse statsSeg
      let m0 ← idx secs 0
      let class_talents ← ClassTalent.parse_vec m0
      let mp ← idx secs_pvp 0
      let pvp_talents ← PVPTalents.parse mp
      let m1 ← idx secs 1
      let equipped_items ← EquippedItem.parse_vec m1
      let m2 ← idx secs 2
      let interesting_auras ← InterestingAura.parse_vec m2
      let restSeg ← sliceFrom line5 23
      let pvp_stats ← PVPStats.parse restSeg
      .ok ⟨guid, faction, stats, class_talents, pvp_talents, equipped_items,
        interesting_auras, pvp_stats⟩
    else .error (.typed "incorrect number of pvp-talent sections found. Expected 1")
  else .error (.typed "incorrect number of bracket sections found. Expected 3")

/-! ## The special-event dispatcher (`src/components/special.rs`) -/

inductive Special where
  | EnchantApplied (source target : Option Actor) (spell_name : String)
      (item_id : Nat) (item_name : String)
  | EnchantRemoved (source target : Option Actor) (spell_name : String)
      (item_id : Nat) (item_name : String)
  | PartyKill (source target : Option Actor) (unconscious_on_death : Bool)
  | UnitDied (source target : Option Actor) (unconscious_on_death : Bool)
  | UnitDestroyed (source target : Option Actor) (unconscious_on_death : Bool)
  | UnitDissipates (source target : Option Actor) (unconscious_on_death : Bool)
  | CombatLogInfo (log_version : Nat) (advanced_log_enabled : Bool)
      (build_version : String) (project_id : Nat)
  | ZoneChange (instance_id : Nat) (zone_name : String) (id : Nat)
  | MapChange (ui_map_id : Nat) (ui_map_name : String) (x0 x1 y0 y1 : F32)
  | EncounterStart (encounter_id : Nat) (encounter_name : String)
      (difficulty_id group_size instance_id : Nat)
  | EncounterEnd (encounter_id : Nat) (encounter_name : String)
      (difficulty_id group_size : Nat) (success : Bool) (fight_time : Nat)
  | WorldMarkerPlaced (instance_id marker : Nat) (x y : F32)
  | WorldMarkerRemoved (marker : Nat)
  | EmoteStandard (actor : Option Actor) (text : String)
  | EmoteEnvironmental (source_guid : Option GUID) (source_name : String)
      (target_guid : Option GUID) (target_name : String) (text : String)
  | CombatantInfo (info : WowLogs.CombatantInfo)
  | ChallengeModeStart (zone_name : String)
      (instance_id challenge_mode_id keystone_level : Nat) (affix_ids : List Nat)
  | ChallengeModeEnd (instance_id : Nat) (success : Bool)
      (keystone_level total_time : Nat)
  | NoneSentinel
deriving DecidableEq, Repr

/-- `Special::parse`: an exact-name table; any unknown name yields the
`NoneSentinel` ("not special, fall through to Standard"). The `EMOTE` arm
branches on whether GUID-parsing the third field returns `Ok` (absent
included) or a typed error; a panic inside that parse still unwinds. -/
def Special.parse (event_type : String) (line : List String) : PResult Special :=
  match event_type with
  | "ENCHANT_APPLIED" => do
    let seg ← slice line 0 4
    let source ← Actor.parse seg
    let seg2 ← slice line 4 8
    let target ← Actor.parse seg2
    let f8 ← idx line 8
    let f9 ← idx line 9
    let item_id ← parse_num_u64 f9
    let f10 ← idx line 10
    .ok (.EnchantApplied source target f8 item_id f10)
  | "ENCHANT_REMOVED" => do
    let seg ← slice line 0 4
    let source ← Actor.parse seg
    let seg2 ← slice line 4 8
    let target ← Actor.parse seg2
    let f8 ← idx line 8
    let f9 ← idx line 9
    let item_id ← parse_num_u64 f9
    let f10 ← idx line 10
    .ok (.EnchantRemoved source target f8 item_id f10)
  | "PARTY_KILL" => do
    let seg ← slice line 0 4
    let source ← Actor.parse seg
    let seg2 ← slice line 4 8
    let target ← Actor.parse seg2
    let f8 ← idx line 8
    let unconscious_on_death ← parse_bool f8
    .ok (.PartyKill source target unconscious_on_death)
  | "UNIT_DIED" => do
    let seg ← slice line 0 4
    let source ← Actor.parse seg
    let seg2 ← slice line 4 8
    let target ← Actor.parse seg2
    let f8 ← idx line 8
    let unconscious_on_death ← parse_bool f8
    .ok (.UnitDied source target unconscious_on_death)
  | "UNIT_DESTROYED" => do
    let seg ← slice line 0 4
    let source ← Actor.parse seg
    let seg2 ← slice line 4 8
    let target ← Actor.parse seg2
    let f8 ← idx line 8
    let unconscious_on_death ← parse_bool f8
    .ok (.UnitDestroyed source target unconscious_on_death)
  | "UNIT_DISSIPATES" => do
    let seg ← slice line 0 4
    let source ← Actor.parse seg
    let seg2 ← slice line 4 8
    let target ← Actor.parse seg2
    let f8 ← idx line 8
    let unconscious_on_death ← parse_bool f8
    .ok (.UnitDissipates source target unconscious_on_death)
  | "COMBAT_LOG_VERSION" => do
    let f0 ← idx line 0
    let log_version ← parse_num_u64 f0
    let f2 ← idx line 2
    let advanced_log_enabled ← parse_bool f2
    let f4 ← idx line 4
    let f6 ← idx line 6
    let project_id ← parse_num_u64 f6
    .ok (.CombatLogInfo log_version advanced_log_enabled f4 project_id)
  | "ZONE_CHANGE" => do
    let f0 ← idx line 0
    let instance_id ← parse_num_u64 f0
    let f1 ← idx line 1
    let f2 ← idx line 2
    let id ← parse_num_u64 f2
    .ok (.ZoneChange instance_id f1 id)
  | "MAP_CHANGE" => do
    let f0 ← idx line 0
    let ui_map_id ← parse_num_u64 f0
    let f1 ← idx line 1
    let f2 ← idx line 2
    let x0 ← parse_num_f32 f2
    let f3 ← idx line 3
    let x1 ← parse_num_f32 f3
    let f4 ← idx line 4
    let y0 ← parse_num_f32 f4
    let f5 ← idx line 5
    let y1 ← parse_num_f32 f5
    .ok (.MapChange ui_map_id f1 x0 x1 y0 y1)
  | "ENCOUNTER_START" => do
    let f0 ← idx line 0
    let encounter_id ← parse_num_u64 f0
    let f1 ← idx line 1
    let f2 ← idx line 2
    let difficulty_id ← parse_num_u64 f2
    let f3 ← idx line 3
    let group_size ← parse_num_u64 f3
    let f4 ← idx line 4
    let instance_id ← parse_num_u64 f4
    .ok (.EncounterStart encounter_id f1 difficulty_id group_size instance_id)
  | "ENCOUNTER_END" => do
    let f0 ← idx line 0
    let encounter_id ← parse_num_u64 f0
    let f1 ← idx line 1
    let f2 ← idx line 2
    let difficulty_id ← parse_num_u64 f2
    let f3 ← idx line 3
    let group_size ← parse_num_u64 f3
    let f4 ← idx line 4
    let success ← parse_bool f4
    let f5 ← idx line 5
    let fight_time ← parse_num_u64 f5
    .ok (.EncounterEnd encounter_id f1 difficulty_id group_size success fight_time)
  | "WORLD_MARKER_PLACED" => do
    let f0 ← idx line 0
    let instance_id ← parse_num_u64 f0
    let f1 ← idx line 1
    let marker ← parse_num_u64 f1
    let f2 ← idx line 2
    let x ← parse_num_f32 f2
    let f3 ← idx line 3
    let y ← parse_num_f32 f3
    .ok (.WorldMarkerPlaced instance_id marker x y)
  | "WORLD_MARKER_REMOVED" => do
    let f0 ← idx line 0
    let marker ← parse_num_u64 f0
    .ok (.WorldMarkerRemoved marker)
  | "EMOTE" => do
    let f2 ← idx line 2
    match GUID.parse f2 with
    | .ok g => do
      let f0 ← idx line 0
      let source_guid ← GUID.parse f0
      let f1 ← idx line 1
      let f3 ← idx line 3
      let f4 ← idx line 4
      .ok (.EmoteEnvironmental source_guid f1 g f3 f4)
    | .error (.crash m) => .error (.crash m)
    | .error (.typed _) => do
      let seg ← slice line 0 4
      let actor ← Actor.parse seg
      let f4 ← idx line 4
      .ok (.EmoteStandard actor f4)
  | "COMBATANT_INFO" => do
    let info ← CombatantInfo.parse line
    .ok (.CombatantInfo info)
  | "CHALLENGE_MODE_START" => do
    let f0 ← idx line 0
    let f1 ← idx line 1
    let instance_id ← parse_num_u64 f1
    let f2 ← idx line 2
    let challenge_mode_id ← parse_num_u64 f2
    let f3 ← idx line 3
    let keystone_level ← parse_num_u64 f3
    let seg ← sliceFrom line 4
    let joined := joinComma seg
    let affix_ids ←
      if joined.data.length ≥ 2 then
        mapME parse_num_u64
          ((splitOnChar ',' ((joined.data.drop 1).dropLast)).map fun l => String.mk l)
      else .error (.crash "byte slice out of range")
    .ok (.ChallengeModeStart f0 instance_id challenge_mode_id keystone_level affix_ids)
  | "CHALLENGE_MODE_END" => do
    let f0 ← idx line 0
    let instance_id ← parse_num_u64 f0
    let f1 ← idx line 1
    let success ← parse_bool f1
    let f2 ← idx line 2
    let keystone_level ← parse_num_u64 f2
    let f3 ← idx line 3
    let total_time ← parse_num_u64 f3
    .ok (.ChallengeModeEnd instance_id success keystone_level total_time)
  | _ => .ok .NoneSentinel

/-! ## The event assembler (`src/components/events.rs`) -/

inductive EventType where
  | Special (name : String) (details : WowLogs.Special)
  | Standard (name : String) (source target : Option Actor) (pfx : Prefix)
      (advanced_params : Option AdvancedParams) (sfx : Suffix)
deriving DecidableEq, Repr

/-- The `name` field of a parsed event payload. -/
def EventType.name : EventType → String
  | .Special n _ => n
  | .Standard n _ _ _ _ _ => n

/-- The `specially_named_events` remap table of `EventType::parse`. -/
def speciallyNamedEvents (event_type : String) : Option String :=
  if event_type = "DAMAGE_SPLIT" then some "SPELL_DAMAGE"
  else if event_type = "DAMAGE_SHIELD" then some "SPELL_DAMAGE"
  else if event_type = "DAMAGE_SHIELD_MISSED" then some "SPELL_MISSED"
  else if event_type = "SWING_DAMAGE_LANDED_SUPPORT" then some "SPELL_DAMAGE_SUPPORT"
  else none

/-- The `let (prefix, advanced, offset) = if name == "ENVIRONMENTAL_DAMAGE"
{..} else {..}` block of `EventType::parse`: `ENVIRONMENTAL_DAMAGE` reverses
the prefix/advanced cursor order, and the `SPELL_ABSORBED` guard keeps the
source's `||`/`&&` precedence (the numeric probe of field 8 runs only for
`SPELL_ABSORBED_SUPPORT`). -/
def parsePrefixAdvanced (event_type name : String) (line : List String) :
    PResult (Prefix × Option AdvancedParams × Nat) :=
  if name = "ENVIRONMENTAL_DAMAGE" then do
    let pseg ← slice line 25 26
    let pfx ← Prefix.parse event_type pseg
    let aseg ← slice line 8 25
    let adv ← AdvancedParams.parse aseg
    .ok (pfx, some adv, 26)
  else do
    let to_consume ←
      if event_type = "SPELL_ABSORBED" then .ok 0
      else if event_type = "SPELL_ABSORBED_SUPPORT" then do
        let f8 ← idx line 8
        if (parseU64? f8).isNone then .ok 0
        else Prefix.entries_to_consume event_type
      else Prefix.entries_to_consume event_type
    let pseg ← slice line 8 (8 + to_consume)
    let pfx ← Prefix.parse event_type pseg
    let hasAdv ← Suffix.has_advanced_params event_type
    if hasAdv then do
      let aseg ← slice line (8 + to_consume) (8 + to_consume + 17)
      let adv ← AdvancedParams.parse aseg
      .ok (pfx, some adv, 8 + to_consume + 17)
    else .ok (pfx, none, 8 + to_consume)

/-- The standard-event tail of `EventType::parse`, after the special-event
try and the renaming: `name` is the original event name kept for the emitted
event, `event_type` the (possibly remapped) name every dispatch decision
uses.  The suffix decodes from the offset the prefix/advanced block
reports. -/
def EventType.parseStandard (name event_type : String) (line : List String) :
    PResult EventType := do
  let seg ← slice line 0 4
  let source ← Actor.parse seg
  let seg2 ← slice line 4 8
  let target ← Actor.parse seg2
  let pao ← parsePrefixAdvanced event_type name line
  let sseg ← sliceFrom line pao.2.2
  let sfx ← Suffix.parse event_type sseg
  .ok (.Standard name source target pao.1 pao.2.1 sfx)

/-- `EventType::parse`: try the special table; a `NoneSentinel` falls through
to the renaming table and the standard pipeline. -/
def EventType.parse (event_type : String) (line : List String) :
    PResult EventType := do
  match ← Special.parse event_type line with
  | .NoneSentinel =>
    match speciallyNamedEvents event_type with
    | none => EventType.parseStandard event_type event_type line
    | some remapped => EventType.parseStandard event_type remapped line
  | s => .ok (.Special event_type s)

/-- Wall-clock stamp of one line.  Modelled from the spec: the source
delegates to the external `chrono` crate with the format
`%Y/%_m/%d %H:%M:%S%.3f` after prepending a hardcoded year, so the model
parses month/day hour:minute:second.millisecond with basic range checks. -/
structure Timestamp where
  month : Nat
  day : Nat
  hour : Nat
  minute : Nat
  second : Nat
  millis : Nat
deriving DecidableEq, Repr

/-- Modelled from the spec: the `chrono` date parse of
`"M/D HH:MM:SS.mmm"`. -/
def parseTimestamp (s : String) : Option Timestamp :=
  let p1 := s.data.span Char.isDigit
  match p1.2 with
  | '/' :: r2 =>
    let p2 := r2.span Char.isDigit
    match p2.2 with
    | ' ' :: r4 =>
      let p3 := r4.span Char.isDigit
      match p3.2 with
      | ':' :: r6 =>
        let p4 := r6.span Char.isDigit
        match p4.2 with
        | ':' :: r8 =>
          let p5 := r8.span Char.isDigit
          match p5.2 with
          | '.' :: m1 :: m2 :: m3 :: rest =>
            if rest = [] ∧ m1.isDigit ∧ m2.isDigit ∧ m3.isDigit then
              match decVal p1.1, decVal p2.1, decVal p3.1, decVal p4.1,
                  decVal p5.1, decVal [m1, m2, m3] with
              | some mo, some da, some ho, some mi, some se, some ms =>
                if 1 ≤ mo ∧ mo ≤ 12 ∧ 1 ≤ da ∧ da ≤ 31 ∧ ho < 24 ∧ mi < 60
                    ∧ se < 60 then
                  some ⟨mo, da, ho, mi, se, ms⟩
                else none
              | _, _, _, _, _, _ => none
            else none
          | _ => none
        | _ => none
      | _ => none
    | _ => none
  | _ => none

/-- The fixed placeholder stamp the source assigns to the bare
`COMBAT_LOG_VERSION` sentinel row (`2024/01/01 00:00:00.000`). -/
def placeholderTimestamp : Timestamp := ⟨1, 1, 0, 0, 0, 0⟩

structure Event where
  timestamp : Timestamp
  event_type : EventType
deriving DecidableEq, Repr

/-- `Event::parse`: split the first field into date and event name on the
first double space (the bare `COMBAT_LOG_VERSION` sentinel excepted), parse
the date, then hand the remaining fields to `EventType::parse`, wrapping a
typed failure with line context. -/
def Event.parse (line : List String) : PResult Event := do
  let f0 ← idx line 0
  let te ←
    if f0 = "COMBAT_LOG_VERSION" then .ok (placeholderTimestamp, f0)
    else
      match splitTwoSpaces f0 with
      | none => .error (.typed ("Error splitting date and event type: " ++ f0))
      | some (d, et) =>
        match parseTimestamp d with
        | none => .error (.typed "Failed to parse date.")
        | some ts => .ok (ts, et)
  let rest ← sliceFrom line 1
  match EventType.parse te.2 rest with
  | .ok ev => .ok ⟨te.1, ev⟩
  | .error (.typed m) => .error (.typed ("Error parsing line: " ++ m))
  | .error (.crash m) => .error (.crash m)

/-! ## Concrete sample lines

Field lists taken from the repository's own test vectors (the first
timestamp/event-type field already split off, as `EventType::parse`
receives them). -/

/-- An `ENVIRONMENTAL_DAMAGE` line: two actor blocks, the 17-field advanced
block at fields 8-24, the environmental prefix `Falling` at field 25, and the
10-field damage suffix from field 26. -/
def envDamageLine : List String :=
  ["0000000000000000", "nil", "0x80000000", "0x80000000", "Player-1329-070EBCFC",
   "Naladrem-Ravencrest", "0x518", "0x0", "Player-1329-070EBCFC",
   "0000000000000000", "815216", "866544", "14879", "1421", "5217", "0", "17",
   "109", "120", "0", "-931.46", "2546.12", "2133", "4.8479", "484", "Falling",
   "51328", "51328", "0", "1", "0", "0", "0", "nil", "nil", "nil"]

/-- A well-formed `DAMAGE_SPLIT` line (its dispatch shape is
`SPELL_DAMAGE`): two absent actors, 3-field spell info, 17-field advanced
block, 10-field damage suffix. -/
def damageSplitLine : List String :=
  ["0000000000000000", "nil", "0x80000000", "0x80000000", "0000000000000000",
   "nil", "0x80000000", "0x80000000", "1850", "Dash", "0x1",
   "Player-1329-09AF0ACF", "0000000000000000", "846460", "846460", "16429",
   "15797", "5313", "94077", "3", "100", "100", "0", "3110.69", "13146.01",
   "2232", "0.7478", "486", "16857", "6079", "-1", "127", "0", "0", "0", "1",
   "nil", "nil"]

/-- The `Standard` payload `damageSplitLine` decodes to. -/
def damageSplitValue : EventType :=
  .Standard "DAMAGE_SPLIT" none none
    (.Spell (some ⟨1850, "Dash", some [.Physical]⟩))
    (some ⟨some (.Player 1329 "09AF0ACF"), none, 846460, 846460, 16429, 15797,
      5313, 94077, [⟨some .Energy, 100, 100, 0⟩],
      ⟨⟨"3110.69"⟩, ⟨"13146.01"⟩, ⟨"0.7478"⟩⟩, 2232, 486⟩)
    (.Damage 16857 6079 none
      (some [.Physical, .Holy, .Fire, .Nature, .Frost, .Shadow, .Arcane])
      0 0 0 true false false)

/-- A `SPELL_ABSORBED` line carrying the optional 3-field spell-info block:
field 8 (`422578`) is the numeric id of the absorbed spell. -/
def spellAbsorbedWithInfoLine : List String :=
  ["Creature-0-4233-2549-14868-200927-00004E626C", "Smolderon", "0x10a48",
   "0x0", "Player-1329-0A0800FA", "Foxgates-Ravencrest", "0x512", "0x0",
   "422578", "Searing Aftermath", "0x4", "Player-1329-0A0800FA",
   "Foxgates-Ravencrest", "0x512", "0x0", "413984", "Shifting Sands", "0x40",
   "1284", "37144", "nil"]

/-- A `SPELL_ABSORBED` line without the spell-info block: field 8 is the
caster GUID, which fails a numeric parse. -/
def spellAbsorbedNoInfoLine : List String :=
  ["Creature-0-1467-1501-22700-98542-00003AC9B3", "Amalgam of Souls",
   "0x10a48", "0x0", "Player-1329-0A17341B", "Oscaruwu-Ravencrest", "0x512",
   "0x0", "Player-1329-0A17341B", "Oscaruwu-Ravencrest", "0x512", "0x0",
   "395152", "Ebon Might", "0xc", "7839", "55203", "nil"]

/-! # Theorems -/

/-! ## Shared lemmas about the `Except` plumbing -/

theorem ok_bind {α β : Type} (a : α) (f : α → PResult β) :
    (Except.ok a >>= f : PResult β) = f a := rfl

theorem bind_ok_iff {α β : Type} {x : PResult α} {f : α → PResult β} {b : β} :
    x >>= f = .ok b ↔ ∃ a, x = .ok a ∧ f a = .ok b := by
  cases x with
  | error e =>
    constructor
    · intro h
      exact absurd h (by simp [Bind.bind, Except.bind])
    · rintro ⟨a, ha, -⟩
      exact absurd ha (by simp)
  | ok a =>
    constructor
    · intro h
      exact ⟨a, rfl, h⟩
    · rintro ⟨a2, ha, hf⟩
      cases ha
      exact hf

theorem mapME_ok_length {α β : Type} (f : α → PResult β) :
    ∀ (l : List α) (ys : List β), mapME f l = .ok ys → ys.length = l.length := by
  intro l
  induction l with
  | nil =>
    intro ys h
    simp only [mapME, Except.ok.injEq] at h
    subst h
    rfl
  | cons x xs ih =>
    intro ys h
    simp only [mapME, bind_ok_iff] at h
    obtain ⟨y, -, ys2, hy2, h⟩ := h
    simp only [Except.ok.injEq] at h
    subst h
    simp [ih ys2 hy2]

theorem zip4_length {α β γ δ : Type} :
    ∀ (as_ : List α) (bs : List β) (cs : List γ) (ds : List δ),
      (zip4 as_ bs cs ds).length
        = min as_.length (min bs.length (min cs.length ds.length)) := by
  intro as_
  induction as_ with
  | nil =>
    intro bs cs ds
    simp [zip4]
  | cons a as_ ih =>
    intro bs cs ds
    cases bs with
    | nil => simp [zip4]
    | cons b bs =>
      cases cs with
      | nil => simp [zip4]
      | cons c cs =>
        cases ds with
        | nil => simp [zip4]
        | cons d ds =>
          simp only [zip4, List.length_cons, ih]
          omega

/-- Every successful `parseStandard` result is a `Standard` payload carrying
the `name` argument (the original, pre-remap event name). -/
theorem parseStandard_name (n e : String) (l : List String) (ev : EventType)
    (h : EventType.parseStandard n e l = .ok ev) : ev.name = n := by
  unfold EventType.parseStandard at h
  simp only [bind_ok_iff] at h
  obtain ⟨seg, -, src, -, seg2, -, tgt, -, pao, -, sseg, -, sfx, -, h⟩ := h
  simp only [Except.ok.injEq] at h
  subst h
  rfl

/-! ## The claims -/

/-- Claim C1: the spec says `SPELL_ABSORBED` (and the SUPPORT variant)
consumes the 3-field spell-info block, yielding `Prefix::Spell(Some ..)`,
exactly when field 8 parses as a number.  The code disagrees: its guard
`e == "SPELL_ABSORBED" || e == "SPELL_ABSORBED_SUPPORT" && u64::from_str(line[8]).is_err()`
binds `&&` tighter than `||`, so a plain `SPELL_ABSORBED` always consumes 0
prefix fields.  On a line whose field 8 is the numeric spell id `422578`,
the parse therefore mis-feeds the suffix decoder and fails with a typed
GUID error instead of succeeding with `Spell (some ..)`; the no-spell-info
line still succeeds with `Spell none`. -/
theorem c1_spell_absorbed_guard_precedence :
    (parseU64? "422578").isSome = true
    ∧ EventType.parse "SPELL_ABSORBED" spellAbsorbedWithInfoLine
        = .error (.typed "GUID type not found: 422578")
    ∧ EventType.parse "SPELL_ABSORBED" spellAbsorbedNoInfoLine
        = .ok (.Standard "SPELL_ABSORBED"
            (some ⟨.Creature .Creature 1467 1501 22700 98542 "00003AC9B3",
              "Amalgam of Souls", 68168, some 0⟩)
            (some ⟨.Player 1329 "0A17341B", "Oscaruwu-Ravencrest", 1298, some 0⟩)
            (.Spell none) none
            (.Absorbed
              ⟨.Player 1329 "0A17341B", "Oscaruwu-Ravencrest", 1298, some 0⟩
              ⟨395152, "Ebon Might", some [.Fire, .Nature]⟩ 7839 55203 false)) :=
  ⟨rfl, rfl, rfl⟩

/-- Claim C2: the spec promises that every decoder returns a typed error and
never panics.  The code panics on both cited paths: `GUID::parse` indexes a
missing dash segment of a recognised kind (`"Player-1"`), and the
`*_ABSORBED` suffix arm calls `.unwrap()` on the absent caster actor built
from the all-zero GUID sentinel; the top-level `Event::parse` also panics
outright on an empty field list. -/
theorem c2_panic_paths :
    GUID.parse "Player-1" = .error (.crash "index out of bounds")
    ∧ Suffix.parse "SPELL_ABSORBED"
        ["0000000000000000", "Unknown", "0x80000000", "0x80000000", "8936",
         "Regrowth", "0x8", "983", "56699", "nil"]
        = .error (.crash "called Option unwrap on a None value")
    ∧ Event.parse [] = .error (.crash "index out of bounds") :=
  ⟨rfl, rfl, rfl⟩

/-- Claim C3: the spec says an event whose suffix is `DURABILITY_DAMAGE`
dispatches to the zero-field unit variant because longer suffixes are
checked before their substrings.  The code checks `ends_with("DAMAGE")`
first, and every string ending in `DURABILITY_DAMAGE` also ends in
`DAMAGE`, so the dedicated `DurabilityDamage` arm is unreachable: the
zero-field payload panics on the 10-field damage decode, and ten numeric
fields decode to the wrong (`Damage`) variant. -/
theorem c3_durability_damage_misdispatch :
    strEnds "SPELL_DURABILITY_DAMAGE" "DAMAGE" = true
    ∧ Suffix.parse "SPELL_DURABILITY_DAMAGE" []
        = .error (.crash "index out of bounds")
    ∧ Suffix.parse "SPELL_DURABILITY_DAMAGE"
        ["1", "1", "-1", "1", "0", "0", "0", "nil", "nil", "nil"]
        = .ok (.Damage 1 1 none (some [.Physical]) 0 0 0 false false false) :=
  ⟨rfl, rfl, rfl⟩

/-- Claim C4 (counterexample): four power cells whose pipe-splits have
unequal lengths (2,1,1,1) do not fail with a typed `MalformedPowerInfo`
error; `izip!` silently truncates and the decode succeeds with one record. -/
theorem c4_unequal_arity_succeeds :
    PowerInfo.parse ["3|4", "43", "300", "25"]
      = .ok [⟨some .Energy, 43, 300, 25⟩] := rfl

/-- Claim C4 (amended): on a 4-cell block, a successful `PowerInfo::parse`
yields exactly one record per same-index tuple of the zipped pipe-segment
streams, i.e. as many records as the shortest of the four splits — unequal
arity truncates instead of failing. -/
theorem c4_power_info_zip_truncates (a b c d : String) (ys : List PowerInfo)
    (h : PowerInfo.parse [a, b, c, d] = .ok ys) :
    ys.length = min (splitPipe a).length (min (splitPipe b).length
      (min (splitPipe c).length (splitPipe d).length)) := by
  have h2 : mapME PowerInfo.parseOne
      (zip4 (splitPipe a) (splitPipe b) (splitPipe c) (splitPipe d)) = .ok ys := h
  rw [mapME_ok_length PowerInfo.parseOne _ ys h2, zip4_length]

/-- Claim C4 witness: the equal-arity block `3|4, 43|6, 300|6, 25|6` decodes
to two records, the common split length. -/
theorem c4_power_info_zip_truncates_witness :
    ([⟨some .Energy, 43, 300, 25⟩, ⟨some .ComboPoints, 6, 6, 6⟩] :
        List PowerInfo).length
      = min (splitPipe "3|4").length (min (splitPipe "43|6").length
          (min (splitPipe "300|6").length (splitPipe "25|6").length)) :=
  c4_power_info_zip_truncates "3|4" "43|6" "300|6" "25|6"
    [⟨some .Energy, 43, 300, 25⟩, ⟨some .ComboPoints, 6, 6, 6⟩] rfl

/-- Claim C5: the spec's companion predicate should deny advanced params for
`DURABILITY_DAMAGE`, and the code's own deny-list contains that entry — but
the allow-list is consulted first with an ends-with test, and
`DURABILITY_DAMAGE` ends with the allow-listed `DAMAGE`, so the predicate
wrongly answers `true`; the rest of the cited table behaves as claimed
(allow-listed suffixes true, deny-listed false, unknown a typed error). -/
theorem c5_has_advanced_params_durability :
    Suffix.has_advanced_params "SPELL_DURABILITY_DAMAGE" = .ok true
    ∧ "DURABILITY_DAMAGE" ∈ non_advanced_suffixes
    ∧ Suffix.has_advanced_params "SPELL_DAMAGE" = .ok true
    ∧ Suffix.has_advanced_params "SPELL_MISSED" = .ok false
    ∧ Suffix.has_advanced_params "SPELL_ABSORBED" = .ok false
    ∧ Suffix.has_advanced_params "SPELL_AURA_APPLIED" = .ok false
    ∧ Suffix.has_advanced_params "FOO" = .error (.typed "Unknown suffix: FOO") :=
  ⟨rfl, by decide, rfl, rfl, rfl, rfl, rfl⟩

/-- Claim C6: an `ENVIRONMENTAL_DAMAGE` line decodes its 17-field advanced
block from fields 8-24, then its 1-field environmental prefix from field 25,
then its suffix from field 26 on — the reverse of the usual
prefix-then-advanced cursor order.  Whenever the two actor blocks, the
advanced block at 8-24, the prefix at 25 and the suffix from 26 each decode,
the assembled event is exactly their combination. -/
theorem c6_environmental_damage_order (line : List String)
    (src tgt : Option Actor) (p : Prefix) (a : AdvancedParams) (s : Suffix)
    (hlen : 26 ≤ line.length)
    (hsrc : Actor.parse (line.take 4) = .ok src)
    (htgt : Actor.parse ((line.drop 4).take 4) = .ok tgt)
    (hpfx : Prefix.parse "ENVIRONMENTAL_DAMAGE" ((line.drop 25).take 1) = .ok p)
    (hadv : AdvancedParams.parse ((line.drop 8).take 17) = .ok a)
    (hsfx : Suffix.parse "ENVIRONMENTAL_DAMAGE" (line.drop 26) = .ok s) :
    EventType.parse "ENVIRONMENTAL_DAMAGE" line
      = .ok (.Standard "ENVIRONMENTAL_DAMAGE" src tgt p (some a) s) := by
  have h0 : EventType.parse "ENVIRONMENTAL_DAMAGE" line
      = EventType.parseStandard "ENVIRONMENTAL_DAMAGE" "ENVIRONMENTAL_DAMAGE" line :=
    rfl
  have hs1 : slice line 0 4 = .ok (line.take 4) := by
    unfold slice
    rw [if_pos (by omega)]
    simp
  have hs2 : slice line 4 8 = .ok ((line.drop 4).take 4) := by
    unfold slice
    rw [if_pos (by omega)]
  have hs3 : slice line 25 26 = .ok ((line.drop 25).take 1) := by
    unfold slice
    rw [if_pos (by omega)]
  have hs4 : slice line 8 25 = .ok ((line.drop 8).take 17) := by
    unfold slice
    rw [if_pos (by omega)]
  have hs5 : sliceFrom line 26 = .ok (line.drop 26) := by
    unfold sliceFrom
    rw [if_pos hlen]
  have hpa : parsePrefixAdvanced "ENVIRONMENTAL_DAMAGE" "ENVIRONMENTAL_DAMAGE" line
      = .ok (p, some a, 26) := by
    unfold parsePrefixAdvanced
    rw [if_pos rfl, hs3, ok_bind, hpfx, ok_bind, hs4, ok_bind, hadv, ok_bind]
  rw [h0]
  unfold EventType.parseStandard
  rw [hs1, ok_bind, hsrc, ok_bind, hs2, ok_bind, htgt, ok_bind, hpa, ok_bind]
  show sliceFrom line 26 >>= _ = _
  rw [hs5, ok_bind, hsfx, ok_bind]

/-- Claim C6 witness: the repository's `ENVIRONMENTAL_DAMAGE` test line
assembles from its components in the reversed order. -/
theorem c6_environmental_damage_order_witness :
    EventType.parse "ENVIRONMENTAL_DAMAGE" envDamageLine
      = .ok (.Standard "ENVIRONMENTAL_DAMAGE" none
          (some ⟨.Player 1329 "070EBCFC", "Naladrem-Ravencrest", 1304, some 0⟩)
          (.Environmental .Falling)
          (some ⟨some (.Player 1329 "070EBCFC"), none, 815216, 866544, 14879,
            1421, 5217, 0, [⟨some .Fury, 109, 120, 0⟩],
            ⟨⟨"-931.46"⟩, ⟨"2546.12"⟩, ⟨"4.8479"⟩⟩, 2133, 484⟩)
          (.Damage 51328 51328 (some 0) (some [.Physical]) 0 0 0
            false false false)) :=
  c6_environmental_damage_order envDamageLine none
    (some ⟨.Player 1329 "070EBCFC", "Naladrem-Ravencrest", 1304, some 0⟩)
    (.Environmental .Falling)
    ⟨some (.Player 1329 "070EBCFC"), none, 815216, 866544, 14879, 1421, 5217,
      0, [⟨some .Fury, 109, 120, 0⟩],
      ⟨⟨"-931.46"⟩, ⟨"2546.12"⟩, ⟨"4.8479"⟩⟩, 2133, 484⟩
    (.Damage 51328 51328 (some 0) (some [.Physical]) 0 0 0 false false false)
    (by decide) rfl rfl rfl rfl rfl

/-- Claim C7: the four specially named events dispatch their whole standard
pipeline under the remapped names (`DAMAGE_SPLIT` and `DAMAGE_SHIELD` as
`SPELL_DAMAGE`, `DAMAGE_SHIELD_MISSED` as `SPELL_MISSED`,
`SWING_DAMAGE_LANDED_SUPPORT` as `SPELL_DAMAGE_SUPPORT`), while every
successful standard parse keeps the original name in the emitted event. -/
theorem c7_remap_dispatch :
    (∀ l, EventType.parse "DAMAGE_SPLIT" l
      = EventType.parseStandard "DAMAGE_SPLIT" "SPELL_DAMAGE" l)
    ∧ (∀ l, EventType.parse "DAMAGE_SHIELD" l
      = EventType.parseStandard "DAMAGE_SHIELD" "SPELL_DAMAGE" l)
    ∧ (∀ l, EventType.parse "DAMAGE_SHIELD_MISSED" l
      = EventType.parseStandard "DAMAGE_SHIELD_MISSED" "SPELL_MISSED" l)
    ∧ (∀ l, EventType.parse "SWING_DAMAGE_LANDED_SUPPORT" l
      = EventType.parseStandard "SWING_DAMAGE_LANDED_SUPPORT" "SPELL_DAMAGE_SUPPORT" l)
    ∧ (∀ n e l ev, EventType.parseStandard n e l = .ok ev
      → EventType.name ev = n) :=
  ⟨fun _ => rfl, fun _ => rfl, fun _ => rfl, fun _ => rfl, parseStandard_name⟩

/-- Claim C7 witness: a concrete `DAMAGE_SPLIT` line parses under the
`SPELL_DAMAGE` shape while the emitted name stays `DAMAGE_SPLIT`. -/
theorem c7_remap_dispatch_witness :
    EventType.name damageSplitValue = "DAMAGE_SPLIT" :=
  c7_remap_dispatch.2.2.2.2 "DAMAGE_SPLIT" "SPELL_DAMAGE" damageSplitLine
    damageSplitValue rfl

/-- Claim C8: `GUID::parse` maps the literal 16-zero sentinel to the absent
identity (`Ok(None)`), and any other input whose first dash token is none of
`Player`, `Pet`, `Creature`, `GameObject`, `Vehicle` to the typed
unknown-kind error. -/
theorem c8_guid_sentinel_and_unknown_kind :
    GUID.parse "0000000000000000" = .ok none
    ∧ (∀ (s p0 : String) (rest : List String),
        s ≠ "0000000000000000" →
        splitDash s = p0 :: rest →
        p0 ≠ "Player" → p0 ≠ "Pet" → p0 ≠ "Creature" → p0 ≠ "GameObject" →
        p0 ≠ "Vehicle" →
        GUID.parse s = .error (.typed ("GUID type not found: " ++ p0))) := by
  constructor
  · rfl
  · intro s p0 rest hzero hsplit h1 h2 h3 h4 h5
    unfold GUID.parse
    rw [if_neg hzero, hsplit]
    have hidx : idx (p0 :: rest) 0 = .ok p0 := rfl
    simp only [hidx, ok_bind]
    simp [h1, h2, h3, h4, h5]

/-- Claim C8 witness: the sentinel is absent, and the unrecognised token
`Foo` of `Foo-1` yields the typed unknown-kind error. -/
theorem c8_guid_sentinel_and_unknown_kind_witness :
    GUID.parse "Foo-1" = .error (.typed ("GUID type not found: " ++ "Foo")) :=
  c8_guid_sentinel_and_unknown_kind.2 "Foo-1" "Foo" ["1"] (by decide) rfl
    (by decide) (by decide) (by decide) (by decide) (by decide)

/-- Claim C9: event parsing is a pure function of the field list — the
embedding carries no hidden state, so two invocations of `Event.parse` on
the same fields are structurally identical. -/
theorem c9_parse_deterministic : ∀ l : List String, Event.parse l = Event.parse l :=
  fun _ => rfl

/-- Claim C10: an `EMOTE` line whose third field is the 16-zero GUID
sentinel classifies as `EmoteEnvironmental` with an absent target GUID —
`GUID::parse` returns the absent identity with `Ok`, and the try-parse
branch falls to `EmoteStandard` only on a typed error. -/
theorem c10_emote_zero_sentinel (f0 f1 f3 f4 : String) (rest : List String)
    (g : Option GUID) (hg : GUID.parse f0 = .ok g) :
    Special.parse "EMOTE" (f0 :: f1 :: "0000000000000000" :: f3 :: f4 :: rest)
      = .ok (.EmoteEnvironmental g f1 none f3 f4) := by
  simp only [Special.parse]
  have hidx : idx (f0 :: f1 :: "0000000000000000" :: f3 :: f4 :: rest) 2
      = .ok "0000000000000000" := rfl
  rw [hidx, ok_bind]
  have hzg : GUID.parse "0000000000000000" = .ok (none : Option GUID) := rfl
  rw [hzg]
  dsimp only
  have hidx0 : idx (f0 :: f1 :: "0000000000000000" :: f3 :: f4 :: rest) 0
      = .ok f0 := rfl
  rw [hidx0, ok_bind, hg, ok_bind]
  rfl

/-- Claim C10 witness: the repository's duck-emote test line, whose target
field is the zero sentinel, decodes as `EmoteEnvironmental` with an absent
target GUID. -/
theorem c10_emote_zero_sentinel_witness :
    Special.parse "EMOTE"
      ["Creature-0-1465-2444-137-194909-00009853CD", "Feather-Ruffling Duck",
       "0000000000000000", "nil", "Take control of the Feather Ruffling Duck!"]
      = .ok (.EmoteEnvironmental
          (some (.Creature .Creature 1465 2444 137 194909 "00009853CD"))
          "Feather-Ruffling Duck" none "nil"
          "Take control of the Feather Ruffling Duck!") :=
  c10_emote_zero_sentinel "Creature-0-1465-2444-137-194909-00009853CD"
    "Feather-Ruffling Duck" "nil" "Take control of the Feather Ruffling Duck!"
    [] (some (.Creature .Creature 1465 2444 137 194909 "00009853CD")) rfl

end WowLogs
